import Mathlib

/-!
Shallow embedding of the per-output rendering and transition engine of
`kaleidux-daemon/src/renderer.rs` (crate `kaleidux-daemon`), together with
the shared GPU resource caches of `WgpuContext`.

Modelling conventions:
* wall-clock instants and durations are rational numbers of seconds
  (`std::time::Instant` / `f32` seconds in the source);
* a GPU texture is a value carrying its identity and the creation-time
  usage flags and dimensions (`wgpu::Texture`);
* texture views, bind groups and pipelines are tracked only by presence
  (the source caches them and invalidates the caches; no claim depends on
  the contents of a view or bind group);
* GPU submissions, uniform-buffer writes and presentation have no effect on
  the modelled state and are omitted; every mutation of `Renderer` /
  `WgpuContext` state performed by the source is reproduced;
* the external transition compiler (`ShaderManager::get_builtin_shader`) is
  a parameter of type `String → Option String`, as the spec treats it as an
  external collaborator.
-/

namespace Kaleidux

/-- Content kinds, `crate::queue::ContentType`. -/
inductive ContentType where
  | image
  | video
deriving DecidableEq, Repr

/-- The `valid_content_type == ContentType::Video` comparison as a Bool. -/
def ContentType.isVideo : ContentType → Bool
  | ContentType.video => true
  | ContentType.image => false

/-- A GPU texture, abstracted to its identity plus the usage flags and
dimensions it was created with (`wgpu::Texture`). -/
structure Texture where
  id : Nat
  usage : Nat
  width : Nat
  height : Nat
deriving DecidableEq, Repr

/-- Usage bit `wgpu::TextureUsages::TEXTURE_BINDING`. -/
def USAGE_TEXTURE_BINDING : Nat := 1

/-- Usage bit `wgpu::TextureUsages::COPY_DST`. -/
def USAGE_COPY_DST : Nat := 2

/-- Usage bit `wgpu::TextureUsages::RENDER_ATTACHMENT`. -/
def USAGE_RENDER_ATTACHMENT : Nat := 4

/-- An entry of the texture pool, `TexturePoolEntry` in renderer.rs. -/
structure TexturePoolEntry where
  texture : Texture
  last_used : ℚ
deriving DecidableEq, Repr

/-- The counters of `crate::metrics::PerformanceMetrics` that the renderer
touches. -/
structure PerformanceMetrics where
  texture_pool_hits : Nat
  texture_pool_misses : Nat
  shader_compile_errors : Nat
  shader_compile_fatal_errors : Nat
deriving DecidableEq, Repr

/-- A compiled transition render pipeline, abstracted to the WGSL fragment
source it was built from (`wgpu::RenderPipeline`). -/
structure CompiledPipeline where
  shader : String
deriving DecidableEq, Repr

/-- Association-list lookup (models `HashMap::get`). -/
def alistGet {α β : Type} [DecidableEq α] : List (α × β) → α → Option β
  | [], _ => none
  | (k', v) :: rest, k => if k' = k then some v else alistGet rest k

/-- Association-list update/insert (models `HashMap::insert` /
`HashMap::entry(..).or_insert(..)` followed by an in-place write). -/
def alistSet {α β : Type} [DecidableEq α] : List (α × β) → α → β → List (α × β)
  | [], k, v => [(k, v)]
  | (k', v') :: rest, k, v =>
    if k' = k then (k, v) :: rest else (k', v') :: alistSet rest k v

/-- The shared GPU context state the renderer mutates: the size-bucketed
texture pool, the transition pipeline cache and the metrics counters
(`WgpuContext` in renderer.rs). -/
structure WgpuContext where
  texture_pool : List ((Nat × Nat) × List TexturePoolEntry)
  transition_pipelines : List (String × CompiledPipeline)
  metrics : PerformanceMetrics
deriving DecidableEq, Repr

/-- `Instant::saturating_duration_since`, in seconds. -/
def saturatingSince (now earlier : ℚ) : ℚ := max (now - earlier) 0

/-- `WgpuContext::get_texture_from_pool`.  The `now` parameter is the value
of `Instant::now()` during the call and `fresh` the identity of the texture
`device.create_texture` would return on a pool miss.  Stale entries (those
whose age has reached 5 seconds, `duration_since(..).as_secs() < 5` in the
source) are dropped from the bucket first; then the last entry of the
bucket is popped (`Vec::pop`) and returned as a pool hit, otherwise a fresh
texture with the requested usage flags is created. -/
def get_texture_from_pool (ctx : WgpuContext) (now : ℚ) (width height : Nat)
    (usage : Nat) (fresh : Nat) : Texture × WgpuContext :=
  let key := (width, height)
  match alistGet ctx.texture_pool key with
  | some entries =>
    let kept := entries.filter (fun e => saturatingSince now e.last_used < 5)
    match kept.getLast? with
    | some entry =>
      (entry.texture,
        { ctx with
          texture_pool := alistSet ctx.texture_pool key kept.dropLast
          metrics := { ctx.metrics with
            texture_pool_hits := ctx.metrics.texture_pool_hits + 1 } })
    | none =>
      (⟨fresh, usage, width, height⟩,
        { ctx with
          texture_pool := alistSet ctx.texture_pool key kept
          metrics := { ctx.metrics with
            texture_pool_misses := ctx.metrics.texture_pool_misses + 1 } })
  | none =>
    (⟨fresh, usage, width, height⟩,
      { ctx with
        metrics := { ctx.metrics with
          texture_pool_misses := ctx.metrics.texture_pool_misses + 1 } })

/-- `WgpuContext::return_texture_to_pool`: push the texture back into its
`(width, height)` bucket if the bucket holds fewer than 3 entries, else
drop it (the bucket itself is created by `entry(..).or_insert` either
way). -/
def return_texture_to_pool (ctx : WgpuContext) (now : ℚ) (texture : Texture)
    (width height : Nat) : WgpuContext :=
  let key := (width, height)
  let entries := (alistGet ctx.texture_pool key).getD []
  let entries' :=
    if entries.length < 3 then entries ++ [⟨texture, now⟩] else entries
  { ctx with texture_pool := alistSet ctx.texture_pool key entries' }

/-- The external transition compiler: given a transition name, the compiled
WGSL fragment source, or `none` on a compile failure
(`ShaderManager::get_builtin_shader`). -/
def Compiler : Type := String → Option String

/-- `Renderer::compile_transition_pipeline`: compile the named transition;
on failure record a `shader_compile` error and fall back to compiling the
baseline `"fade"` transition; if even that fails record a
`shader_compile_fatal` error and return no pipeline.  A successfully built
pipeline (fallback included) is cached under the REQUESTED name. -/
def compile_transition_pipeline (compile : Compiler) (ctx : WgpuContext)
    (name : String) : Option CompiledPipeline × WgpuContext :=
  match compile name with
  | some code =>
    let p : CompiledPipeline := ⟨code⟩
    (some p,
      { ctx with transition_pipelines := alistSet ctx.transition_pipelines name p })
  | none =>
    let ctx := { ctx with metrics := { ctx.metrics with
      shader_compile_errors := ctx.metrics.shader_compile_errors + 1 } }
    match compile "fade" with
    | some code =>
      let p : CompiledPipeline := ⟨code⟩
      (some p,
        { ctx with transition_pipelines := alistSet ctx.transition_pipelines name p })
    | none =>
      (none,
        { ctx with metrics := { ctx.metrics with
          shader_compile_fatal_errors := ctx.metrics.shader_compile_fatal_errors + 1 } })

/-- `Renderer::get_transition_pipeline`: return the cached pipeline for the
name if present, else compile (with fade fallback) and cache. -/
def get_transition_pipeline (compile : Compiler) (ctx : WgpuContext)
    (name : String) : Option CompiledPipeline × WgpuContext :=
  match alistGet ctx.transition_pipelines name with
  | some p => (some p, ctx)
  | none => compile_transition_pipeline compile ctx name

/-- A decoded video frame tagged with its session id
(`crate::video::VideoFrame`; the pixel data itself does not influence the
modelled state). -/
structure VideoFrame where
  width : Nat
  height : Nat
  session_id : Nat
deriving DecidableEq, Repr

/-- Transition bookkeeping, `TransitionStats` in renderer.rs. -/
structure TransitionStats where
  start_time : ℚ
  frame_count : Nat
  target_duration : ℚ
  batch_id : Option Nat
deriving DecidableEq, Repr

/-- Per-output mutable renderer state, the fields of `Renderer` in
renderer.rs that the engine mutates.  Texture views and bind groups are
tracked by presence only (`Option Unit` / `Bool`). -/
structure Renderer where
  configured : Bool
  needs_redraw : Bool
  frame_callback_pending : Bool
  last_frame_request : Option ℚ
  last_present_time : ℚ
  config_width : Nat
  config_height : Nat
  composition_texture : Option Unit
  composition_texture_view : Option Unit
  current_texture : Option Texture
  current_aspect : ℚ
  current_texture_view : Option Unit
  current_texture_size : Option (Nat × Nat)
  prev_texture : Option Texture
  prev_aspect : ℚ
  prev_texture_view : Option Unit
  transition_progress : ℚ
  transition_start_time : Option ℚ
  transition_active : Bool
  transition_just_completed : Bool
  active_transition : String
  transition_duration : ℚ
  transition_stats : Option TransitionStats
  transition_bind_group : Bool
  blit_bind_group : Bool
  blit_source_is_composition : Bool
  blit_source_is_prev : Bool
  transition_rendered_this_frame : Bool
  valid_content_type : ContentType
  active_video_session_id : Nat
  active_batch_id : Option Nat
  batch_start_time : Option ℚ
  video_first_frame_time : Option ℚ
deriving DecidableEq, Repr

/-- The freshly constructed renderer state, `Renderer::new` (surface config
starts at 1x1, not yet configured; `last_present_time` is the construction
instant, taken as time 0). -/
def Renderer.new : Renderer where
  configured := false
  needs_redraw := true
  frame_callback_pending := false
  last_frame_request := none
  last_present_time := 0
  config_width := 1
  config_height := 1
  composition_texture := none
  composition_texture_view := none
  current_texture := none
  current_aspect := 1
  current_texture_view := none
  current_texture_size := none
  prev_texture := none
  prev_aspect := 1
  prev_texture_view := none
  transition_progress := 1
  transition_start_time := none
  transition_active := false
  transition_just_completed := false
  active_transition := "fade"
  transition_duration := 1
  transition_stats := none
  transition_bind_group := false
  blit_bind_group := false
  blit_source_is_composition := false
  blit_source_is_prev := false
  transition_rendered_this_frame := false
  valid_content_type := ContentType.image
  active_video_session_id := 0
  active_batch_id := none
  batch_start_time := none
  video_first_frame_time := none

/-- The shared context in its initial (process start) state: empty caches,
zeroed counters. -/
def WgpuContext.new : WgpuContext where
  texture_pool := []
  transition_pipelines := []
  metrics := ⟨0, 0, 0, 0⟩

/-- `Renderer::switch_content`: move `current` into `previous` (when
non-empty), reset the transition bookkeeping (the active flag is only set
later, when new content is uploaded), invalidate cached bind groups and the
batch anchor. -/
def switch_content (s : Renderer) : Renderer :=
  let s :=
    match s.current_texture with
    | some curr =>
      { s with
        prev_texture_view := s.current_texture_view
        current_texture_view := none
        prev_texture := some curr
        current_texture := none
        prev_aspect := s.current_aspect }
    | none => s
  { s with
    transition_progress := 0
    transition_start_time := none
    transition_active := false
    transition_just_completed := false
    transition_bind_group := false
    blit_bind_group := false
    batch_start_time := none
    video_first_frame_time := none
    needs_redraw := true }

/-- `Renderer::abort_transition`: force completion when a transition is
active or no current content exists. -/
def abort_transition (s : Renderer) : Renderer :=
  if s.transition_active || s.current_texture.isNone then
    { s with
      transition_active := false
      transition_just_completed := false
      transition_progress := 1
      transition_start_time := none
      needs_redraw := true }
  else s

/-- `Renderer::clear`: drop every texture, reset the transition and force
reconfiguration. -/
def Renderer.clear (s : Renderer) : Renderer :=
  { s with
    current_texture := none
    current_texture_view := none
    prev_texture := none
    prev_texture_view := none
    composition_texture := none
    composition_texture_view := none
    current_texture_size := none
    transition_progress := 1
    transition_active := false
    transition_just_completed := false
    transition_bind_group := false
    blit_bind_group := false
    needs_redraw := true
    active_video_session_id := 0
    configured := false }

/-- `Renderer::set_content_type`. -/
def set_content_type (s : Renderer) (t : ContentType) : Renderer :=
  { s with valid_content_type := t }

/-- `Renderer::apply_config`: set the transition name and its duration
(milliseconds converted to seconds, clamped below by 1ms). -/
def apply_config (s : Renderer) (name : String) (transition_time_ms : Nat) :
    Renderer :=
  { s with
    active_transition := name
    transition_duration := max ((transition_time_ms : ℚ) / 1000) (1 / 1000)
    needs_redraw := true }

/-- `Renderer::resize_checked`: with positive dimensions and a ready
surface (`caps_ok`, capability formats available), reconfigure, recreate
the composition texture and invalidate bind groups; with no capabilities
mark unconfigured; zero dimensions are a no-op. -/
def resize_checked (s : Renderer) (width height : Nat) (caps_ok : Bool) :
    Renderer :=
  if 0 < width ∧ 0 < height then
    if caps_ok then
      { s with
        config_width := width
        config_height := height
        composition_texture_view := some ()
        composition_texture := some ()
        transition_bind_group := false
        blit_bind_group := false
        configured := true
        needs_redraw := true }
    else { s with configured := false }
  else s

/-- `Renderer::upload_image_data` (state effects): store a freshly created
texture (identity `fresh`, usage `TEXTURE_BINDING | COPY_DST |
RENDER_ATTACHMENT`) into `current`, invalidate cached bind groups, and
start a transition when a `previous` texture exists, else signal an instant
completion. -/
def upload_image_data (s : Renderer) (fresh : Nat) (width height : Nat) :
    Renderer :=
  let texture : Texture :=
    ⟨fresh, USAGE_TEXTURE_BINDING + USAGE_COPY_DST + USAGE_RENDER_ATTACHMENT,
     width, height⟩
  let s :=
    { s with
      current_texture_view := some ()
      current_texture := some texture
      current_aspect := (width : ℚ) / (height : ℚ)
      current_texture_size := some (width, height)
      needs_redraw := true
      valid_content_type := ContentType.image
      transition_bind_group := false
      blit_bind_group := false
      blit_source_is_composition := false
      blit_source_is_prev := false }
  if s.prev_texture.isSome then
    { s with
      transition_start_time := none
      transition_progress := 0
      transition_active := true }
  else
    { s with
      transition_active := false
      transition_progress := 1
      transition_just_completed := true }

/-- `Renderer::upload_frame`: discard the frame unless the surface accepts
video and the frame carries the active session id; otherwise upload it into
`current`, reusing the existing texture when the size matches and going
through the texture pool when it does not, and on the first frame after a
switch either start the transition (a `previous` exists) or signal instant
completion. -/
def upload_frame (ctx : WgpuContext) (s : Renderer) (frame : VideoFrame)
    (now : ℚ) (fresh : Nat) : WgpuContext × Renderer :=
  if !s.valid_content_type.isVideo ∨
      frame.session_id ≠ s.active_video_session_id then
    (ctx, s)
  else
    let is_first_frame_after_switch := s.current_texture.isNone
    let s :=
      if is_first_frame_after_switch ∧ s.video_first_frame_time.isNone then
        { s with video_first_frame_time := some now }
      else s
    let needs_new_texture := s.current_texture_size ≠ some (frame.width, frame.height)
    let (texture, ctx, s) :=
      match s.current_texture with
      | some curr =>
        if ¬needs_new_texture then (curr, ctx, s)
        else
          let s := { s with current_texture_view := none }
          let ctx :=
            match s.current_texture_size with
            | some (w, h) => return_texture_to_pool ctx now curr w h
            | none => ctx
          let (t, ctx) := get_texture_from_pool ctx now frame.width frame.height
            (USAGE_TEXTURE_BINDING + USAGE_COPY_DST) fresh
          (t, ctx, s)
      | none =>
        let (t, ctx) := get_texture_from_pool ctx now frame.width frame.height
          (USAGE_TEXTURE_BINDING + USAGE_COPY_DST) fresh
        (t, ctx, s)
    let s :=
      if needs_new_texture ∨ s.current_texture_view.isNone then
        { s with
          current_texture_view := some ()
          transition_bind_group := false
          blit_bind_group := false }
      else s
    let s :=
      { s with
        current_texture := some texture
        current_texture_size := some (frame.width, frame.height)
        current_aspect := (frame.width : ℚ) / (frame.height : ℚ)
        needs_redraw := true }
    let s :=
      if is_first_frame_after_switch then
        let s := { s with video_first_frame_time := none }
        if s.prev_texture.isSome then
          { s with
            transition_start_time := none
            transition_progress := 0
            transition_active := true }
        else
          { s with
            transition_active := false
            transition_progress := 1
            transition_just_completed := true }
      else s
    (ctx, s)

/-- Result of `surface.get_current_texture()` as matched by
`Renderer::render` (renderer.rs lines 887-913): success, `Lost`,
`Outdated`, a transient error whose text mentions a timeout, or any other
error. -/
inductive SurfaceAcquire where
  | ok
  | lost
  | outdated
  | timeout
  | otherError
deriving DecidableEq, Repr

/-- Transition progress/timing update of `Renderer::render`
(renderer.rs lines 924-1005).  While the transition is active:
with a start anchor, recompute `progress = min(elapsed / duration, 1)`,
bump the stats frame count, and on `progress >= 1` retire the session
(clear the active flag, raise `transition_just_completed`, take the
stats); with no anchor yet (first render frame), assign it — reusing a
shared batch anchor unless its age exceeds 80% of the duration, in which
case anchor to now minus 100ms (`Instant::checked_sub`, falling back to
now) — and compute the initial progress and fresh stats. -/
def advance_transition (frame_time : ℚ) (s : Renderer) : Renderer :=
  if s.transition_active then
    match s.transition_start_time with
    | some start =>
      let elapsed := saturatingSince frame_time start
      let new_progress := min (elapsed / s.transition_duration) 1
      let s :=
        { s with
          transition_progress := new_progress
          transition_stats := s.transition_stats.map
            (fun st => { st with frame_count := st.frame_count + 1 }) }
      if (1 : ℚ) ≤ s.transition_progress then
        { s with
          transition_active := false
          transition_just_completed := true
          transition_stats := none }
      else s
    | none =>
      let start :=
        match s.batch_start_time with
        | some batch_start =>
          let age := saturatingSince frame_time batch_start
          if s.transition_duration * (8 / 10) < age then
            if (1 : ℚ) / 10 ≤ frame_time then frame_time - 1 / 10 else frame_time
          else batch_start
        | none => frame_time
      let elapsed := saturatingSince frame_time start
      { s with
        transition_start_time := some start
        transition_progress := min (elapsed / s.transition_duration) 1
        transition_stats := some ⟨start, 0, s.transition_duration, s.active_batch_id⟩ }
  else s

/-- `Renderer::ensure_composition_texture`: (re)create the composition
texture and view when missing (or sized against invalid dimensions),
invalidating cached bind groups; with zero dimensions the error is
reported and the state left untouched (the caller ignores the error). -/
def ensure_composition_texture (s : Renderer) : Renderer :=
  let needs_creation :=
    s.composition_texture.isNone ∨ s.composition_texture_view.isNone
  let size_mismatch :=
    s.composition_texture.isSome ∧ (s.config_width = 0 ∨ s.config_height = 0)
  if needs_creation ∨ size_mismatch then
    if s.config_width = 0 ∨ s.config_height = 0 then s
    else
      { s with
        composition_texture_view := some ()
        composition_texture := some ()
        transition_bind_group := false
        blit_bind_group := false }
  else s

/-- `Renderer::update_transition_bind_group`: drop the cached bind group
when either source view is missing, keep an existing one, else create
it. -/
def update_transition_bind_group (s : Renderer) : Renderer :=
  match s.prev_texture_view with
  | none => { s with transition_bind_group := false }
  | some _ =>
    match s.current_texture_view with
    | none => { s with transition_bind_group := false }
    | some _ =>
      if s.transition_bind_group then s
      else { s with transition_bind_group := true }

/-- The `should_render_transition` condition of `Renderer::render`
(renderer.rs lines 1018-1022). -/
def should_render_transition (s : Renderer) : Prop :=
  s.transition_active = true ∧ s.prev_texture.isSome = true ∧
    s.current_texture.isSome = true ∧ s.composition_texture.isSome = true ∧
    s.composition_texture_view.isSome = true

instance (s : Renderer) : Decidable (should_render_transition s) := by
  unfold should_render_transition
  infer_instance

/-- End-of-transition cleanup inside the `should_render_transition` branch
of `Renderer::render` (renderer.rs lines 1090-1102): once progress has
reached 1 and a current texture exists, drop the previous texture and its
view, invalidate bind groups and deactivate the transition. -/
def transition_cleanup (s : Renderer) : Renderer :=
  if (1 : ℚ) ≤ s.transition_progress ∧ s.current_texture.isSome then
    if s.prev_texture.isSome then
      { s with
        prev_texture := none
        prev_texture_view := none
        transition_bind_group := false
        blit_bind_group := false
        transition_start_time := none
        transition_active := false }
    else s
  else s

/-- The transition-drawing section of `Renderer::render`
(renderer.rs lines 1027-1103).  The returned Bool is false when the source
returns `Ok(())` early (no pipeline, or composition view lost), skipping
the rest of the tick. -/
def render_transition_draw (ctx' : WgpuContext) (s : Renderer) :
    WgpuContext × Renderer × Bool :=
  let s :=
    if ¬s.transition_bind_group then update_transition_bind_group s else s
  if s.transition_bind_group then
    if s.composition_texture_view.isNone then (ctx', s, false)
    else
      let s := { s with transition_rendered_this_frame := true }
      (ctx', transition_cleanup s, true)
  else (ctx', transition_cleanup s, true)

/-- The transition-drawing section of `Renderer::render` (renderer.rs
lines 1027-1103), split between pipeline acquisition here and the actual
draw in `render_transition_draw`. -/
def render_transition_stage (compile : Compiler) (ctx : WgpuContext)
    (s : Renderer) : WgpuContext × Renderer × Bool :=
  if should_render_transition s then
    match get_transition_pipeline compile ctx s.active_transition with
    | (none, ctx') => (ctx', s, false)
    | (some _, ctx') => render_transition_draw ctx' s
  else (ctx, s, true)

/-- The tagged blit-source decision of `Renderer::render`
(renderer.rs lines 1122-1127). -/
inductive BlitSource where
  | current
  | prev
  | composition
deriving DecidableEq, Repr

/-- The `blit_source == BlitSource::Composition` comparison as a Bool. -/
def BlitSource.isComposition : BlitSource → Bool
  | BlitSource.composition => true
  | _ => false

/-- The `blit_source == BlitSource::Prev` comparison as a Bool. -/
def BlitSource.isPrev : BlitSource → Bool
  | BlitSource.prev => true
  | _ => false

/-- Blit source selection of `Renderer::render` (renderer.rs lines
1129-1167): show `current` when idle, the composition buffer during a fully
resourced transition, falling back to `previous` then `current`, and to a
black screen (`none`) when no texture exists at all. -/
def blit_source_select (s : Renderer) : Option BlitSource :=
  if s.current_texture.isSome then
    if ¬s.transition_active ∨ s.prev_texture.isNone then
      some BlitSource.current
    else if s.transition_active ∧ s.prev_texture.isSome ∧
        s.current_texture.isSome ∧ s.composition_texture.isSome ∧
        s.composition_texture_view.isSome then
      some BlitSource.composition
    else if s.transition_active ∧ s.prev_texture.isSome then
      some BlitSource.prev
    else some BlitSource.current
  else if s.prev_texture.isSome then some BlitSource.prev
  else none

/-- `Renderer::request_frame_callback`: re-request when no callback is
pending or the pending one is stale (outstanding for more than 500ms),
recording the request time. -/
def request_frame_callback (s : Renderer) (now : ℚ) : Renderer :=
  let go : Renderer → Renderer := fun s =>
    { s with frame_callback_pending := true, last_frame_request := some now }
  if s.frame_callback_pending then
    match s.last_frame_request with
    | some r =>
      if 1 / 2 < now - r then go { s with frame_callback_pending := false }
      else s
    | none => go s
  else go s

/-- Blit bind group (re)creation of `Renderer::render` (renderer.rs lines
1188-1284): when the cached blit bind group is missing or was built for a
different source, rebuild it from the selected source's view, falling back
composition → previous → current when that view is missing; `none` means
every view is missing and the source returns `Ok(())` early (in the
fallback path the `blit_source_is_*` markers are NOT updated — the locals
computed there shadow and never reach the fields). -/
def blit_prepare_bind_group (s : Renderer) (src : BlitSource) : Option Renderer :=
  let is_comp := src.isComposition
  let is_prev := src.isPrev
  let needs_recreate := !s.blit_bind_group ||
    (s.blit_source_is_composition != is_comp) ||
    (s.blit_source_is_prev != is_prev)
  if needs_recreate then
    let tex_view :=
      match src with
      | BlitSource.current => s.current_texture_view
      | BlitSource.prev => s.prev_texture_view
      | BlitSource.composition => s.composition_texture_view
    match tex_view with
    | some _ =>
      some { s with
        blit_bind_group := true
        blit_source_is_composition := is_comp
        blit_source_is_prev := is_prev }
    | none =>
      let fallback_view :=
        match src with
        | BlitSource.composition =>
          s.prev_texture_view.orElse (fun _ => s.current_texture_view)
        | BlitSource.prev => s.current_texture_view
        | BlitSource.current => none
      match fallback_view with
      | some _ => some { s with blit_bind_group := true }
      | none => none
  else some s

/-- The present tail of `Renderer::render` (renderer.rs lines 1315-1357):
request a frame callback when none is outstanding (or on a fresh
transition, Wayland only), present, clear the anchor of a retired
transition, record the present time and settle `needs_redraw` (kept during
transitions and for video, cleared once a static image has been
presented). -/
def blit_present (wayland : Bool) (now : ℚ) (s : Renderer) : Renderer :=
  let s :=
    if ¬s.frame_callback_pending ∨ s.transition_progress = 0 then
      if wayland then request_frame_callback s now else s
    else s
  let s :=
    if ¬s.transition_active then { s with transition_start_time := none }
    else s
  let s := { s with last_present_time := now }
  if s.transition_active then { s with needs_redraw := true }
  else if !s.valid_content_type.isVideo then { s with needs_redraw := false }
  else s

/-- The blit / present tail of `Renderer::render` (renderer.rs lines
1108-1357): pick the blit source (returning early to a black frame when
none exists), (re)create the blit bind group when the source changed, and
present. -/
def blit_stage (wayland : Bool) (now : ℚ) (ctx : WgpuContext) (s : Renderer) :
    WgpuContext × Renderer :=
  match blit_source_select s with
  | none => (ctx, s)
  | some src =>
    match blit_prepare_bind_group s src with
    | none => (ctx, s)
    | some s =>
      if ¬s.blit_bind_group then (ctx, s)
      else (ctx, blit_present wayland now s)

/-- The per-frame flag reset at the top of `Renderer::render`
(renderer.rs line 863). -/
def reset_frame_flag (s : Renderer) : Renderer :=
  { s with transition_rendered_this_frame := false }

/-- The reconfiguration attempt at the top of an unconfigured render tick
(renderer.rs lines 867-875). -/
def reconfigure_if_needed (caps_ok : Bool) (s : Renderer) : Renderer :=
  if ¬s.configured ∧ 0 < s.config_width ∧ 0 < s.config_height then
    resize_checked s s.config_width s.config_height caps_ok
  else s

/-- `Renderer::render`, one render tick (renderer.rs lines 858-1358): reset
the per-frame flag, attempt reconfiguration when unconfigured (skipping the
tick on failure), skip when neither a transition is active nor a redraw is
flagged, recover from surface errors, then advance the transition, ensure
the composition target, draw the transition and blit/present.  Every path
of the source returns `Ok(())`; the model accordingly returns the new
state on every path. -/
def render (compile : Compiler) (acq : SurfaceAcquire) (caps_ok : Bool)
    (wayland : Bool) (frame_time : ℚ) (ctx : WgpuContext) (s : Renderer) :
    WgpuContext × Renderer :=
  let s := reset_frame_flag s
  let s := reconfigure_if_needed caps_ok s
  if ¬s.configured then (ctx, s)
  else if ¬s.transition_active ∧ ¬s.needs_redraw then (ctx, s)
  else
    match acq with
    | SurfaceAcquire.lost =>
      (ctx, { s with
        configured := false
        needs_redraw := true
        frame_callback_pending := false })
    | SurfaceAcquire.outdated =>
      (ctx, { s with
        configured := false
        needs_redraw := true
        frame_callback_pending := false })
    | SurfaceAcquire.timeout => (ctx, { s with needs_redraw := true })
    | SurfaceAcquire.otherError => (ctx, s)
    | SurfaceAcquire.ok =>
      let s := advance_transition frame_time s
      let s :=
        if s.transition_active then ensure_composition_texture s else s
      match render_transition_stage compile ctx s with
      | (ctx, s, false) => (ctx, s)
      | (ctx, s, true) => blit_stage wayland frame_time ctx s

/-- `Renderer::recreate_surface` (state effects). -/
def recreate_surface (s : Renderer) : Renderer :=
  { s with configured := false, needs_redraw := true }

/-- The operations the daemon performs on a render surface and the shared
context: the `Renderer` methods of renderer.rs plus the direct field
assignments performed by the orchestration loop in main.rs
(`active_batch_id` / `batch_start_time` before a switch, main.rs:89-90, and
`active_video_session_id` when a video player starts, main.rs:154). -/
inductive Op where
  | renderTick (compile : Compiler) (acq : SurfaceAcquire)
      (caps_ok wayland : Bool) (frame_time : ℚ)
  | switchContent
  | uploadImage (fresh width height : Nat)
  | uploadFrame (frame : VideoFrame) (now : ℚ) (fresh : Nat)
  | abortTransition
  | clearSurface
  | setContentTypeOp (t : ContentType)
  | applyConfigOp (name : String) (transition_time_ms : Nat)
  | resize (width height : Nat) (caps_ok : Bool)
  | recreateSurfaceOp
  | setVideoSession (sid : Nat)
  | setBatchAnchor (batch : Option Nat) (anchor : Option ℚ)

/-- Apply one operation to the shared context and a surface state. -/
def applyOp : Op → WgpuContext × Renderer → WgpuContext × Renderer
  | Op.renderTick compile acq caps_ok wayland t, (ctx, s) =>
    render compile acq caps_ok wayland t ctx s
  | Op.switchContent, (ctx, s) => (ctx, switch_content s)
  | Op.uploadImage fresh w h, (ctx, s) => (ctx, upload_image_data s fresh w h)
  | Op.uploadFrame frame now fresh, (ctx, s) => upload_frame ctx s frame now fresh
  | Op.abortTransition, (ctx, s) => (ctx, abort_transition s)
  | Op.clearSurface, (ctx, s) => (ctx, Renderer.clear s)
  | Op.setContentTypeOp t, (ctx, s) => (ctx, set_content_type s t)
  | Op.applyConfigOp name ms, (ctx, s) => (ctx, apply_config s name ms)
  | Op.resize w h caps_ok, (ctx, s) => (ctx, resize_checked s w h caps_ok)
  | Op.recreateSurfaceOp, (ctx, s) => (ctx, recreate_surface s)
  | Op.setVideoSession sid, (ctx, s) =>
    (ctx, { s with active_video_session_id := sid })
  | Op.setBatchAnchor batch anchor, (ctx, s) =>
    (ctx, { s with active_batch_id := batch, batch_start_time := anchor })

/-- The states of one surface (with the shared context) reachable from
process start through the modelled operations. -/
inductive Reachable : WgpuContext × Renderer → Prop where
  | init : Reachable (WgpuContext.new, Renderer.new)
  | step (op : Op) {p : WgpuContext × Renderer} :
      Reachable p → Reachable (applyOp op p)

/-- The invariant on the `previous` slot that the code actually maintains:
a retained previous texture is accompanied by an active transition, OR by
an empty `current` slot (between `switch_content` and the next upload), OR
by a finished transition (`progress ≥ 1`, after completion or
`abort_transition`). -/
def PrevInvariant (s : Renderer) : Prop :=
  s.prev_texture.isSome = true →
    (s.transition_active = true ∨ s.current_texture.isSome = false ∨
      (1 : ℚ) ≤ s.transition_progress)

/-- A compiler that succeeds on every transition name (used to exercise
concrete render scenarios). -/
def totalCompiler : Compiler := fun _ => some "wgsl"

/-- Scenario (spec §8, Scenario B): a fresh surface shows image A. -/
def scenarioImageA : Renderer := upload_image_data Renderer.new 1 100 50

/-- Scenario: the content scheduler switches away from image A. -/
def scenarioSwitched : Renderer := switch_content scenarioImageA

/-- Scenario: image B is uploaded, arming a transition (duration 1s). -/
def scenarioImageB : Renderer := upload_image_data scenarioSwitched 2 200 100

/-- Scenario: first render tick at t = 0 (assigns the start anchor). -/
def scenarioTick0 : WgpuContext × Renderer :=
  render totalCompiler SurfaceAcquire.ok true false 0 WgpuContext.new scenarioImageB

/-- Scenario: render tick at t = 1 = duration, the completion tick. -/
def scenarioTick1 : WgpuContext × Renderer :=
  render totalCompiler SurfaceAcquire.ok true false 1 scenarioTick0.1 scenarioTick0.2

/-- Scenario (spec §8, Scenario C, stale-anchor side): a transition armed
with a 50ms duration whose shared batch anchor (time 0) is far older than
80% of the duration by the first render tick. -/
def staleBatchState : Renderer :=
  { scenarioImageB with
    transition_duration := 1 / 20
    active_batch_id := some 7
    batch_start_time := some 0 }

/-- Scenario: the anchor-assignment step of the first render tick of
`staleBatchState`, at t = 1. -/
def staleBatchAdvance : Renderer := advance_transition 1 staleBatchState

/-- Scenario: a configured surface mid-transition with its anchor already
assigned at time 0 (duration 1s). -/
def runningState : Renderer :=
  { scenarioImageB with
    configured := true
    transition_start_time := some 0 }

/-- Updating a key of an association list makes it hold the new value. -/
theorem alistGet_alistSet_self {α β : Type} [DecidableEq α]
    (l : List (α × β)) (k : α) (v : β) :
    alistGet (alistSet l k v) k = some v := by
  induction l with
  | nil => simp [alistGet, alistSet]
  | cons hd tl ih =>
    obtain ⟨k', v'⟩ := hd
    by_cases h : k' = k
    · simp [alistGet, alistSet, h]
    · simp [alistGet, alistSet, h, ih]

/-- `ensure_composition_texture` only touches the composition texture/view
and the cached bind groups. -/
theorem ensure_composition_texture_fields (s : Renderer) :
    (ensure_composition_texture s).transition_progress = s.transition_progress ∧
    (ensure_composition_texture s).transition_active = s.transition_active ∧
    (ensure_composition_texture s).transition_start_time = s.transition_start_time ∧
    (ensure_composition_texture s).transition_duration = s.transition_duration ∧
    (ensure_composition_texture s).prev_texture = s.prev_texture ∧
    (ensure_composition_texture s).current_texture = s.current_texture ∧
    (ensure_composition_texture s).active_transition = s.active_transition ∧
    (ensure_composition_texture s).configured = s.configured := by
  unfold ensure_composition_texture
  repeat' split
  all_goals (try simp)
  all_goals (try (split_ifs <;> (try simp_all)))
  all_goals (try simp_all)
  all_goals (try (split_ifs <;> simp_all))

/-- `update_transition_bind_group` only touches the cached bind group. -/
theorem update_transition_bind_group_fields (s : Renderer) :
    (update_transition_bind_group s).transition_progress = s.transition_progress ∧
    (update_transition_bind_group s).transition_active = s.transition_active ∧
    (update_transition_bind_group s).transition_start_time = s.transition_start_time ∧
    (update_transition_bind_group s).prev_texture = s.prev_texture ∧
    (update_transition_bind_group s).current_texture = s.current_texture ∧
    (update_transition_bind_group s).transition_duration = s.transition_duration ∧
    (update_transition_bind_group s).composition_texture_view = s.composition_texture_view ∧
    (update_transition_bind_group s).configured = s.configured := by
  unfold update_transition_bind_group
  repeat' split
  all_goals (try simp)
  all_goals (try (split_ifs <;> (try simp_all)))
  all_goals (try simp_all)
  all_goals (try (split_ifs <;> simp_all))

/-- Rebuilding the blit bind group touches only the bind group and the
source markers. -/
theorem blit_prepare_bind_group_fields (s : Renderer) (src : BlitSource)
    (r : Renderer) (heq : blit_prepare_bind_group s src = some r) :
    r.transition_progress = s.transition_progress ∧
    r.transition_active = s.transition_active ∧
    r.transition_start_time = s.transition_start_time ∧
    r.prev_texture = s.prev_texture ∧
    r.current_texture = s.current_texture ∧
    r.transition_duration = s.transition_duration ∧
    r.valid_content_type = s.valid_content_type ∧
    r.configured = s.configured := by
  unfold blit_prepare_bind_group at heq
  cases src <;> simp only [BlitSource.isComposition, BlitSource.isPrev] at heq <;>
    repeat' split at heq
  all_goals (try (cases heq))
  all_goals simp_all

/-- Requesting a frame callback touches only the callback bookkeeping. -/
theorem request_frame_callback_fields (s : Renderer) (now : ℚ) :
    (request_frame_callback s now).transition_progress = s.transition_progress ∧
    (request_frame_callback s now).transition_active = s.transition_active ∧
    (request_frame_callback s now).transition_start_time = s.transition_start_time ∧
    (request_frame_callback s now).prev_texture = s.prev_texture ∧
    (request_frame_callback s now).current_texture = s.current_texture ∧
    (request_frame_callback s now).transition_duration = s.transition_duration ∧
    (request_frame_callback s now).valid_content_type = s.valid_content_type ∧
    (request_frame_callback s now).configured = s.configured := by
  unfold request_frame_callback
  repeat' split
  all_goals (try simp)
  all_goals (try (split_ifs <;> (try simp_all)))
  all_goals (try simp_all)

/-- The present tail never touches the transition progress, the active
flag, the texture slots or the duration; it clears the start anchor only
for an inactive transition. -/
theorem blit_present_fields (wayland : Bool) (now : ℚ) (s : Renderer) :
    (blit_present wayland now s).transition_progress = s.transition_progress ∧
    (blit_present wayland now s).transition_active = s.transition_active ∧
    (blit_present wayland now s).prev_texture = s.prev_texture ∧
    (blit_present wayland now s).current_texture = s.current_texture ∧
    (blit_present wayland now s).transition_duration = s.transition_duration ∧
    (blit_present wayland now s).configured = s.configured ∧
    (s.transition_active = true →
      (blit_present wayland now s).transition_start_time = s.transition_start_time) := by
  obtain ⟨h1, h2, h3, h4, h5, h6, h7, h8⟩ := request_frame_callback_fields s now
  unfold blit_present
  by_cases hc : (¬s.frame_callback_pending ∨ s.transition_progress = 0)
    <;> by_cases hw : wayland = true
    <;> by_cases ha : s.transition_active = true
    <;> simp_all
    <;> (try (split_ifs <;> simp_all))

/-- The blit/present tail of a render tick never touches the transition
progress, the active flag, the texture slots, or the duration; it clears
the start anchor only for an inactive transition. -/
theorem blit_stage_fields (wayland : Bool) (now : ℚ) (ctx : WgpuContext)
    (s : Renderer) :
    ((blit_stage wayland now ctx s).2).transition_progress = s.transition_progress ∧
    ((blit_stage wayland now ctx s).2).transition_active = s.transition_active ∧
    ((blit_stage wayland now ctx s).2).prev_texture = s.prev_texture ∧
    ((blit_stage wayland now ctx s).2).current_texture = s.current_texture ∧
    ((blit_stage wayland now ctx s).2).transition_duration = s.transition_duration ∧
    ((blit_stage wayland now ctx s).2).configured = s.configured ∧
    (s.transition_active = true →
      ((blit_stage wayland now ctx s).2).transition_start_time = s.transition_start_time) := by
  unfold blit_stage
  cases hsel : blit_source_select s with
  | none => simp [hsel]
  | some src =>
    cases hprep : blit_prepare_bind_group s src with
    | none => simp [hsel, hprep]
    | some r =>
      obtain ⟨p1, p2, p3, p4, p5, p6, p7, p8⟩ :=
        blit_prepare_bind_group_fields s src r hprep
      obtain ⟨q1, q2, q3, q4, q5, q6, q7⟩ := blit_present_fields wayland now r
      by_cases hb : r.blit_bind_group = false
      · simp [hsel, hprep, hb, p1, p2, p3, p4, p5, p6, p8]
      · simp only [Bool.not_eq_false] at hb
        simp [hsel, hprep, hb, q1, q2, q3, q4, q5, q6, p1, p2, p3, p4, p5, p6, p8]
        intro ha
        rw [q7 (by rw [p2, ha]), p3]

/-- `resize_checked` never touches the transition state or the content
texture slots. -/
theorem resize_checked_fields (s : Renderer) (w h : Nat) (caps_ok : Bool) :
    (resize_checked s w h caps_ok).transition_progress = s.transition_progress ∧
    (resize_checked s w h caps_ok).transition_active = s.transition_active ∧
    (resize_checked s w h caps_ok).transition_start_time = s.transition_start_time ∧
    (resize_checked s w h caps_ok).transition_duration = s.transition_duration ∧
    (resize_checked s w h caps_ok).prev_texture = s.prev_texture ∧
    (resize_checked s w h caps_ok).current_texture = s.current_texture := by
  unfold resize_checked
  split_ifs <;> simp_all

/-- The reconfiguration attempt never touches the transition state or the
content texture slots. -/
theorem reconfigure_if_needed_fields (caps_ok : Bool) (s : Renderer) :
    (reconfigure_if_needed caps_ok s).transition_progress = s.transition_progress ∧
    (reconfigure_if_needed caps_ok s).transition_active = s.transition_active ∧
    (reconfigure_if_needed caps_ok s).transition_start_time = s.transition_start_time ∧
    (reconfigure_if_needed caps_ok s).transition_duration = s.transition_duration ∧
    (reconfigure_if_needed caps_ok s).prev_texture = s.prev_texture ∧
    (reconfigure_if_needed caps_ok s).current_texture = s.current_texture := by
  obtain ⟨z1, z2, z3, z4, z5, z6⟩ :=
    resize_checked_fields s s.config_width s.config_height caps_ok
  unfold reconfigure_if_needed
  split_ifs <;> simp_all

/-- The end-of-transition cleanup keeps the progress. -/
theorem transition_cleanup_progress (s : Renderer) :
    (transition_cleanup s).transition_progress = s.transition_progress := by
  unfold transition_cleanup
  split_ifs <;> simp

/-- The end-of-transition cleanup keeps the duration. -/
theorem transition_cleanup_duration (s : Renderer) :
    (transition_cleanup s).transition_duration = s.transition_duration := by
  unfold transition_cleanup
  split_ifs <;> simp

/-- The end-of-transition cleanup keeps the current slot. -/
theorem transition_cleanup_current (s : Renderer) :
    (transition_cleanup s).current_texture = s.current_texture := by
  unfold transition_cleanup
  split_ifs <;> simp

/-- The end-of-transition cleanup keeps the configured flag. -/
theorem transition_cleanup_configured (s : Renderer) :
    (transition_cleanup s).configured = s.configured := by
  unfold transition_cleanup
  split_ifs <;> simp

/-- The end-of-transition cleanup is the identity while progress is below
1 (its guard requires `progress >= 1.0`). -/
theorem transition_cleanup_of_lt (s : Renderer)
    (h : s.transition_progress < 1) : transition_cleanup s = s := by
  unfold transition_cleanup
  rw [if_neg]
  intro hc
  exact absurd hc.1 (not_le.mpr h)

/-- The draw step of the transition section never changes the progress or
the duration, and below progress 1 it also keeps the active flag, the
anchor and both texture slots. -/
theorem render_transition_draw_fields (ctx' : WgpuContext) (s : Renderer) :
    ((render_transition_draw ctx' s).2.1).transition_progress
        = s.transition_progress ∧
    ((render_transition_draw ctx' s).2.1).transition_duration
        = s.transition_duration ∧
    ((render_transition_draw ctx' s).2.1).configured = s.configured ∧
    (s.transition_progress < 1 →
      ((render_transition_draw ctx' s).2.1).transition_active
          = s.transition_active ∧
      ((render_transition_draw ctx' s).2.1).transition_start_time
          = s.transition_start_time ∧
      ((render_transition_draw ctx' s).2.1).prev_texture
          = s.prev_texture ∧
      ((render_transition_draw ctx' s).2.1).current_texture
          = s.current_texture) := by
  obtain ⟨u1, u2, u3, u4, u5, u6, u7, u8⟩ := update_transition_bind_group_fields s
  unfold render_transition_draw
  by_cases hbg : s.transition_bind_group = true
  · rw [if_neg (not_not_intro hbg), if_pos hbg]
    by_cases hcv : s.composition_texture_view.isNone = true
    · rw [if_pos hcv]
      exact ⟨rfl, rfl, rfl, fun _ => ⟨rfl, rfl, rfl, rfl⟩⟩
    · rw [if_neg hcv]
      refine ⟨by simp [transition_cleanup_progress],
        by simp [transition_cleanup_duration],
        by simp [transition_cleanup_configured], fun hlt => ?_⟩
      rw [show (ctx', transition_cleanup
            { s with transition_rendered_this_frame := true }, true).2.1
          = transition_cleanup { s with transition_rendered_this_frame := true }
          from rfl]
      rw [transition_cleanup_of_lt _ (by simpa using hlt)]
      exact ⟨rfl, rfl, rfl, rfl⟩
  · have hbg' : ¬s.transition_bind_group = true := hbg
    rw [if_pos hbg']
    by_cases hb2 : (update_transition_bind_group s).transition_bind_group = true
    · rw [if_pos hb2]
      by_cases hcv :
          (update_transition_bind_group s).composition_texture_view.isNone = true
      · rw [if_pos hcv]
        exact ⟨u1, u6, u8, fun _ => ⟨u2, u3, u4, u5⟩⟩
      · rw [if_neg hcv]
        refine ⟨by simp [transition_cleanup_progress, u1],
          by simp [transition_cleanup_duration, u6],
          by simp [transition_cleanup_configured, u8], fun hlt => ?_⟩
        rw [show (ctx', transition_cleanup
              { update_transition_bind_group s with
                transition_rendered_this_frame := true }, true).2.1
            = transition_cleanup
              { update_transition_bind_group s with
                transition_rendered_this_frame := true } from rfl]
        rw [transition_cleanup_of_lt _ (by simpa [u1] using hlt)]
        exact ⟨by simpa using u2, by simpa using u3, by simpa using u4,
          by simpa using u5⟩
    · rw [if_neg hb2]
      refine ⟨by simp [transition_cleanup_progress, u1],
        by simp [transition_cleanup_duration, u6],
        by simp [transition_cleanup_configured, u8], fun hlt => ?_⟩
      rw [show (ctx', transition_cleanup (update_transition_bind_group s),
            true).2.1 = transition_cleanup (update_transition_bind_group s)
          from rfl]
      rw [transition_cleanup_of_lt _ (by simpa [u1] using hlt)]
      exact ⟨u2, u3, u4, u5⟩

/-- The transition-drawing section of a render tick never changes the
progress or the duration, and below progress 1 it also keeps the active
flag, the anchor and both texture slots. -/
theorem render_transition_stage_fields (compile : Compiler)
    (ctx : WgpuContext) (s : Renderer) :
    ((render_transition_stage compile ctx s).2.1).transition_progress
        = s.transition_progress ∧
    ((render_transition_stage compile ctx s).2.1).transition_duration
        = s.transition_duration ∧
    ((render_transition_stage compile ctx s).2.1).configured = s.configured ∧
    (s.transition_progress < 1 →
      ((render_transition_stage compile ctx s).2.1).transition_active
          = s.transition_active ∧
      ((render_transition_stage compile ctx s).2.1).transition_start_time
          = s.transition_start_time ∧
      ((render_transition_stage compile ctx s).2.1).prev_texture
          = s.prev_texture ∧
      ((render_transition_stage compile ctx s).2.1).current_texture
          = s.current_texture) := by
  unfold render_transition_stage
  by_cases hsr : should_render_transition s
  · rw [if_pos hsr]
    rcases hgp : get_transition_pipeline compile ctx s.active_transition with ⟨p, ctx'⟩
    cases p with
    | none => simp
    | some pl => exact render_transition_draw_fields ctx' s
  · simp [hsr]

/-- With the transition inactive the progress/timing update is skipped. -/
theorem advance_transition_inactive (t : ℚ) (s : Renderer)
    (h : s.transition_active = false) : advance_transition t s = s := by
  unfold advance_transition
  simp [h]

/-- Characterization of the progress update while Running (anchor set):
progress becomes `min(saturating(now - anchor) / duration, 1)`; the session
stays active exactly while that value is below 1, in which case the anchor
is untouched; duration and both texture slots are unchanged. -/
theorem advance_transition_running (t a : ℚ) (s : Renderer)
    (ha : s.transition_active = true) (hst : s.transition_start_time = some a) :
    (advance_transition t s).transition_progress
        = min (saturatingSince t a / s.transition_duration) 1 ∧
    ((advance_transition t s).transition_active = true ↔
      min (saturatingSince t a / s.transition_duration) 1 < 1) ∧
    (min (saturatingSince t a / s.transition_duration) 1 < 1 →
      (advance_transition t s).transition_start_time = some a) ∧
    (advance_transition t s).transition_duration = s.transition_duration ∧
    (advance_transition t s).prev_texture = s.prev_texture ∧
    (advance_transition t s).current_texture = s.current_texture ∧
    (advance_transition t s).configured = s.configured := by
  unfold advance_transition
  rw [if_pos ha, hst]
  by_cases hp : (1 : ℚ) ≤ min (saturatingSince t a / s.transition_duration) 1
  · simp only [hp, if_pos, if_true]
    refine ⟨by simp, ?_, ?_, by simp, by simp, by simp, by simp⟩
    · simp [not_lt.mpr hp]
    · exact fun h => absurd h (not_lt.mpr hp)
  · simp only [hp, if_false]
    refine ⟨by simp, ?_, ?_, by simp, by simp, by simp, by simp⟩
    · simp [ha, not_le.mp hp]
    · intro _
      simp [hst]

/-- On a configured surface with work to do and a successful surface
acquire, a render tick runs its main body: progress update, composition
check, transition draw and blit/present. -/
theorem reset_frame_flag_configured (s : Renderer) :
    (reset_frame_flag s).configured = s.configured := rfl

/-- A configured surface skips the reconfiguration attempt. -/
theorem reconfigure_if_needed_of_configured (caps_ok : Bool) (s : Renderer)
    (h : s.configured = true) : reconfigure_if_needed caps_ok s = s := by
  unfold reconfigure_if_needed
  rw [if_neg]
  simp [h]

theorem reset_frame_flag_progress (s : Renderer) :
    (reset_frame_flag s).transition_progress = s.transition_progress := rfl

theorem reset_frame_flag_active (s : Renderer) :
    (reset_frame_flag s).transition_active = s.transition_active := rfl

theorem reset_frame_flag_needs_redraw (s : Renderer) :
    (reset_frame_flag s).needs_redraw = s.needs_redraw := rfl

theorem reset_frame_flag_start (s : Renderer) :
    (reset_frame_flag s).transition_start_time = s.transition_start_time := rfl

theorem reset_frame_flag_duration (s : Renderer) :
    (reset_frame_flag s).transition_duration = s.transition_duration := rfl

theorem reset_frame_flag_prev (s : Renderer) :
    (reset_frame_flag s).prev_texture = s.prev_texture := rfl

theorem reset_frame_flag_current (s : Renderer) :
    (reset_frame_flag s).current_texture = s.current_texture := rfl

/-- On a configured surface with work to do and a successful surface
acquire, a render tick runs its main body: progress update, composition
check, transition draw and blit/present. -/
theorem render_ok_body (compile : Compiler) (caps_ok wayland : Bool)
    (t : ℚ) (ctx : WgpuContext) (s : Renderer)
    (hc : s.configured = true)
    (hr : s.transition_active = true ∨ s.needs_redraw = true) :
    render compile SurfaceAcquire.ok caps_ok wayland t ctx s =
      (let s1 := advance_transition t (reset_frame_flag s)
       let s2 :=
         if s1.transition_active then ensure_composition_texture s1 else s1
       match render_transition_stage compile ctx s2 with
       | (ctx', s', false) => (ctx', s')
       | (ctx', s', true) => blit_stage wayland t ctx' s') := by
  unfold render
  dsimp only
  rw [reconfigure_if_needed_of_configured caps_ok (reset_frame_flag s)
    (by rw [reset_frame_flag_configured]; exact hc)]
  rw [if_neg (by simp [reset_frame_flag_configured, hc]),
    if_neg (by
      rcases hr with h | h
      · simp [reset_frame_flag_active, h]
      · simp [reset_frame_flag_needs_redraw, h])]

/-- Characterization of a full render tick while Running (configured
surface, successful acquire, anchor set): the tick computes
`progress = min(saturating(now - anchor) / duration, 1)`, stays active
exactly while that value is below 1 — keeping the anchor — and never
changes the duration. -/
theorem render_running_char (compile : Compiler) (caps_ok wayland : Bool)
    (t a : ℚ) (ctx : WgpuContext) (s : Renderer)
    (hc : s.configured = true) (ha : s.transition_active = true)
    (hst : s.transition_start_time = some a) :
    ((render compile SurfaceAcquire.ok caps_ok wayland t ctx s).2).transition_progress
        = min (saturatingSince t a / s.transition_duration) 1 ∧
    (((render compile SurfaceAcquire.ok caps_ok wayland t ctx s).2).transition_active
        = true ↔ min (saturatingSince t a / s.transition_duration) 1 < 1) ∧
    (min (saturatingSince t a / s.transition_duration) 1 < 1 →
      ((render compile SurfaceAcquire.ok caps_ok wayland t ctx s).2).transition_start_time
        = some a) ∧
    ((render compile SurfaceAcquire.ok caps_ok wayland t ctx s).2).transition_duration
        = s.transition_duration ∧
    ((render compile SurfaceAcquire.ok caps_ok wayland t ctx s).2).configured
        = true := by
  rw [render_ok_body compile caps_ok wayland t ctx s hc (Or.inl ha)]
  simp only []
  set s0 : Renderer := reset_frame_flag s with hs0
  have hs0a : s0.transition_active = true := by
    rw [hs0, reset_frame_flag_active]; exact ha
  have hs0st : s0.transition_start_time = some a := by
    rw [hs0, reset_frame_flag_start]; exact hst
  have hs0d : s0.transition_duration = s.transition_duration := by
    rw [hs0, reset_frame_flag_duration]
  have hs0c : s0.configured = true := by
    rw [hs0, reset_frame_flag_configured]; exact hc
  obtain ⟨a1, a2, a3, a4, a5, a6, a7⟩ :=
    advance_transition_running t a s0 hs0a hs0st
  rw [hs0d] at a1 a2 a3
  rw [hs0d] at a4
  rw [hs0c] at a7
  set s1 := advance_transition t s0 with hs1
  obtain ⟨e1, e2, e3, e4, e5, e6, e7, e8⟩ := ensure_composition_texture_fields s1
  set s2 := if s1.transition_active = true then ensure_composition_texture s1
    else s1 with hs2
  have f1 : s2.transition_progress = s1.transition_progress := by
    rw [hs2]; split_ifs <;> simp [e1]
  have f2 : s2.transition_active = s1.transition_active := by
    rw [hs2]; split_ifs <;> simp [e2]
  have f3 : s2.transition_start_time = s1.transition_start_time := by
    rw [hs2]; split_ifs <;> simp [e3]
  have f4 : s2.transition_duration = s1.transition_duration := by
    rw [hs2]; split_ifs <;> simp [e4]
  have f5 : s2.configured = s1.configured := by
    rw [hs2]; split_ifs <;> simp [e8]
  obtain ⟨r1, r2, r4, r3⟩ := render_transition_stage_fields compile ctx s2
  rcases hrts : render_transition_stage compile ctx s2 with ⟨ctx3, s3, b⟩
  rw [hrts] at r1 r2 r3 r4
  simp only at r1 r2 r3 r4
  obtain ⟨b1, b2, b3, b4, b5, b7, b6⟩ := blit_stage_fields wayland t ctx3 s3
  by_cases hp : min (saturatingSince t a / s.transition_duration) 1 < 1
  · have hs1a : s1.transition_active = true := a2.mpr hp
    have hs2p : s2.transition_progress < 1 := by rw [f1, a1]; exact hp
    obtain ⟨g1, g2, g3, g4⟩ := r3 hs2p
    have hs3a : s3.transition_active = true := by rw [g1, f2]; exact hs1a
    cases b with
    | false =>
      refine ⟨by simp [r1, f1, a1], ?_, ?_, by simp [r2, f4, a4],
        by simp [r4, f5, a7]⟩
      · simp [hs3a, hp]
      · intro _
        simp [g2, f3, a3 hp]
    | true =>
      refine ⟨by simp [b1, r1, f1, a1], ?_, ?_, by simp [b5, r2, f4, a4],
        by simp [b7, r4, f5, a7]⟩
      · simp [b2, hs3a, hp]
      · intro _
        rw [show (blit_stage wayland t ctx3 s3).2.transition_start_time
            = s3.transition_start_time from b6 hs3a, g2, f3, a3 hp]
  · have hs1a : s1.transition_active = false := by
      rcases Bool.eq_false_or_eq_true s1.transition_active with h | h
      · exact absurd (a2.mp h) hp
      · exact h
    have hs2a : s2.transition_active = false := by rw [f2]; exact hs1a
    have hsr : ¬should_render_transition s2 := by
      intro hcon
      rw [should_render_transition] at hcon
      rw [hs2a] at hcon
      simp at hcon
    have hrts2 : render_transition_stage compile ctx s2 = (ctx, s2, true) := by
      rw [render_transition_stage, if_neg hsr]
    rw [hrts2] at hrts
    injection hrts with h1 h2
    injection h2 with h2a h2b
    subst h2a
    rw [h2b.symm]
    refine ⟨by simp [b1, f1, a1], ?_, ?_, by simp [b5, f4, a4],
      by simp [b7, f5, a7]⟩
    · simp [b2, hs2a, hp]
    · exact fun h => absurd h hp

/-- A render tick on an inactive transition never changes the progress
value (no matter how the surface acquire went). -/
theorem render_inactive_progress (compile : Compiler) (acq : SurfaceAcquire)
    (caps_ok wayland : Bool) (t : ℚ) (ctx : WgpuContext) (s : Renderer)
    (h : s.transition_active = false) :
    ((render compile acq caps_ok wayland t ctx s).2).transition_progress
      = s.transition_progress := by
  unfold render
  dsimp only
  obtain ⟨z1, z2, z3, z4, z5, z6⟩ :=
    reconfigure_if_needed_fields caps_ok (reset_frame_flag s)
  set s0 := reconfigure_if_needed caps_ok (reset_frame_flag s) with hs0
  have hp0 : s0.transition_progress = s.transition_progress :=
    z1.trans (reset_frame_flag_progress s)
  have ha0 : s0.transition_active = false :=
    (z2.trans (reset_frame_flag_active s)).trans h
  by_cases hc0 : s0.configured = true
  · rw [if_neg (by simp [hc0])]
    by_cases hnr : s0.needs_redraw = true
    · rw [if_neg (by simp [hnr])]
      cases acq with
      | lost => simpa using hp0
      | outdated => simpa using hp0
      | timeout => simpa using hp0
      | otherError => simpa using hp0
      | ok =>
        rw [advance_transition_inactive t s0 ha0]
        rw [if_neg (by simp [ha0])]
        have hsr : ¬should_render_transition s0 := by
          intro hcon
          rw [should_render_transition, ha0] at hcon
          simp at hcon
        rw [show render_transition_stage compile ctx s0 = (ctx, s0, true) from
          by rw [render_transition_stage, if_neg hsr]]
        obtain ⟨b1, _, _, _, _, _, _⟩ := blit_stage_fields wayland t ctx s0
        simpa [b1] using hp0
    · rw [if_pos (by simp [ha0, hnr])]
      exact hp0
  · rw [if_pos (by simp [hc0])]
    exact hp0

/-- C9: while a transition is active with its start anchor set, a render
tick computes `progress = clamp((now - start_anchor)/duration, 0, 1)`
(the lower clamp through `saturating_duration_since`, the upper through
`min`); the value stays in `[0, 1]`; across two consecutive ticks with
non-decreasing tick times the progress is non-decreasing; and while the
transition stays active the anchor is left untouched, never re-derived. -/
theorem transition_progress_clamped_monotone
    (compile : Compiler) (caps_ok wayland : Bool)
    (t1 t2 a : ℚ) (ctx : WgpuContext) (s : Renderer)
    (hc : s.configured = true) (ha : s.transition_active = true)
    (hst : s.transition_start_time = some a)
    (hd : 0 < s.transition_duration) (ht : t1 ≤ t2) :
    ((render compile SurfaceAcquire.ok caps_ok wayland t1 ctx s).2).transition_progress
      = min (saturatingSince t1 a / s.transition_duration) 1 ∧
    0 ≤ ((render compile SurfaceAcquire.ok caps_ok wayland t1 ctx s).2).transition_progress ∧
    ((render compile SurfaceAcquire.ok caps_ok wayland t1 ctx s).2).transition_progress ≤ 1 ∧
    (((render compile SurfaceAcquire.ok caps_ok wayland t1 ctx s).2).transition_active = true →
      ((render compile SurfaceAcquire.ok caps_ok wayland t1 ctx s).2).transition_start_time
        = some a) ∧
    ((render compile SurfaceAcquire.ok caps_ok wayland t1 ctx s).2).transition_progress ≤
      ((render compile SurfaceAcquire.ok caps_ok wayland t2
          (render compile SurfaceAcquire.ok caps_ok wayland t1 ctx s).1
          (render compile SurfaceAcquire.ok caps_ok wayland t1 ctx s).2).2).transition_progress := by
  obtain ⟨c1, c2, c3, c4, c5⟩ :=
    render_running_char compile caps_ok wayland t1 a ctx s hc ha hst
  have hnn : 0 ≤ min (saturatingSince t1 a / s.transition_duration) 1 :=
    le_min (div_nonneg (le_max_right _ _) hd.le) zero_le_one
  refine ⟨c1, by rw [c1]; exact hnn, by rw [c1]; exact min_le_right _ _,
    fun hA => c3 (c2.mp hA), ?_⟩
  by_cases hp : min (saturatingSince t1 a / s.transition_duration) 1 < 1
  · have hA := c2.mpr hp
    have hS := c3 hp
    obtain ⟨d1, _, _, d4, _⟩ :=
      render_running_char compile caps_ok wayland t2 a
        (render compile SurfaceAcquire.ok caps_ok wayland t1 ctx s).1
        (render compile SurfaceAcquire.ok caps_ok wayland t1 ctx s).2 c5 hA hS
    rw [c1, d1, c4]
    have hsat : saturatingSince t1 a ≤ saturatingSince t2 a :=
      max_le_max (sub_le_sub_right ht a) le_rfl
    exact min_le_min ((div_le_div_right hd).mpr hsat) le_rfl
  · have hA : ((render compile SurfaceAcquire.ok caps_ok wayland t1 ctx
        s).2).transition_active = false := by
      rcases Bool.eq_false_or_eq_true
        ((render compile SurfaceAcquire.ok caps_ok wayland t1 ctx
          s).2).transition_active with h | h
      · exact absurd (c2.mp h) hp
      · exact h
    rw [render_inactive_progress compile SurfaceAcquire.ok caps_ok wayland t2
      (render compile SurfaceAcquire.ok caps_ok wayland t1 ctx s).1
      (render compile SurfaceAcquire.ok caps_ok wayland t1 ctx s).2 hA]

/-- Witness for `transition_progress_clamped_monotone` at a concrete
running state and the tick pair (1/2, 1). -/
theorem transition_progress_clamped_monotone_witness :
    0 ≤ ((render totalCompiler SurfaceAcquire.ok true false (1/2)
      WgpuContext.new runningState).2).transition_progress :=
  (transition_progress_clamped_monotone totalCompiler true false (1/2) 1 0
    WgpuContext.new runningState rfl rfl rfl
    (show (0:ℚ) < 1 by norm_num) (by norm_num)).2.1

/-- C3: a delivered video frame whose session id is below the surface's
accepted video session id is silently discarded: `upload_frame` leaves the
whole surface state (current texture, aspect, views, transition state) and
the shared context untouched. -/
theorem upload_frame_stale_session_unchanged (ctx : WgpuContext)
    (s : Renderer) (frame : VideoFrame) (now : ℚ) (fresh : Nat)
    (hs : frame.session_id < s.active_video_session_id) :
    upload_frame ctx s frame now fresh = (ctx, s) := by
  unfold upload_frame
  rw [if_pos (Or.inr (Nat.ne_of_lt hs))]

/-- Witness for `upload_frame_stale_session_unchanged`: a frame with
session id 3 against an accepted session id 5. -/
theorem upload_frame_stale_session_unchanged_witness :
    upload_frame WgpuContext.new
      { Renderer.new with
        valid_content_type := ContentType.video
        active_video_session_id := 5 } ⟨64, 64, 3⟩ 0 0
    = (WgpuContext.new,
      { Renderer.new with
        valid_content_type := ContentType.video
        active_video_session_id := 5 }) :=
  upload_frame_stale_session_unchanged _ _ _ _ _ (by decide)

/-- C6: recoverable surface errors during a render tick never escalate —
the tick completes, flags `needs_redraw` for a retry, and marks the
surface unconfigured for `Lost`/`Outdated` but not for a transient
timeout. -/
theorem render_surface_error_recovery (compile : Compiler)
    (caps_ok wayland : Bool) (t : ℚ) (ctx : WgpuContext) (s : Renderer)
    (hc : s.configured = true) (hr : s.needs_redraw = true) :
    ((render compile SurfaceAcquire.lost caps_ok wayland t ctx s).2).configured
        = false ∧
    ((render compile SurfaceAcquire.lost caps_ok wayland t ctx s).2).needs_redraw
        = true ∧
    ((render compile SurfaceAcquire.outdated caps_ok wayland t ctx s).2).configured
        = false ∧
    ((render compile SurfaceAcquire.outdated caps_ok wayland t ctx s).2).needs_redraw
        = true ∧
    ((render compile SurfaceAcquire.timeout caps_ok wayland t ctx s).2).needs_redraw
        = true ∧
    ((render compile SurfaceAcquire.timeout caps_ok wayland t ctx s).2).configured
        = true := by
  refine ⟨?_, ?_, ?_, ?_, ?_, ?_⟩ <;>
    (unfold render
     dsimp only
     rw [reconfigure_if_needed_of_configured caps_ok (reset_frame_flag s)
       (by rw [reset_frame_flag_configured]; exact hc)]
     try rw [if_neg (by simp [reset_frame_flag_configured, hc]),
       if_neg (by simp [reset_frame_flag_needs_redraw, hr])]
     try simp [reset_frame_flag_configured, hc])

/-- Witness for `render_surface_error_recovery` on a configured fresh
surface. -/
theorem render_surface_error_recovery_witness :
    ((render totalCompiler SurfaceAcquire.lost true false 0 WgpuContext.new
      { Renderer.new with configured := true }).2).configured = false :=
  (render_surface_error_recovery totalCompiler true false 0 WgpuContext.new
    { Renderer.new with configured := true } rfl rfl).1

/-- C7: a second `switch_content` with no upload in between is a no-op on
the `previous` slot: the first call moves `current` (texture and aspect)
into `previous`, and the second call leaves `previous` exactly as the
first left it. -/
theorem switch_content_idempotent_on_prev (s : Renderer) (tex : Texture)
    (h : s.current_texture = some tex) :
    (switch_content s).prev_texture = some tex ∧
    (switch_content s).prev_aspect = s.current_aspect ∧
    (switch_content (switch_content s)).prev_texture
      = (switch_content s).prev_texture ∧
    (switch_content (switch_content s)).prev_aspect
      = (switch_content s).prev_aspect := by
  unfold switch_content
  rw [h]
  simp

/-- Witness for `switch_content_idempotent_on_prev` on a surface showing
image A. -/
theorem switch_content_idempotent_on_prev_witness :
    (switch_content scenarioImageA).prev_texture = some ⟨1, 7, 100, 50⟩ :=
  (switch_content_idempotent_on_prev scenarioImageA ⟨1, 7, 100, 50⟩ rfl).1

/-- A pool lookup whose bucket ends in a fresh (non-expired) entry is a
pool hit: the last entry is popped and returned, the hit counter bumped,
and the bucket replaced by its retained prefix. -/
theorem get_texture_from_pool_hit (ctx : WgpuContext)
    (b : List TexturePoolEntry) (e : TexturePoolEntry)
    (w h usage fresh : Nat) (now : ℚ)
    (hb : alistGet ctx.texture_pool (w, h) = some (b ++ [e]))
    (httl : saturatingSince now e.last_used < 5) :
    get_texture_from_pool ctx now w h usage fresh =
      (e.texture,
        { ctx with
          texture_pool := alistSet ctx.texture_pool (w, h)
            (b.filter (fun x => saturatingSince now x.last_used < 5))
          metrics := { ctx.metrics with
            texture_pool_hits := ctx.metrics.texture_pool_hits + 1 } }) := by
  unfold get_texture_from_pool
  dsimp only
  rw [hb]
  dsimp only
  rw [List.filter_append,
    show List.filter (fun x => decide (saturatingSince now x.last_used < 5)) [e]
        = [e] from by simp [List.filter_singleton, httl],
    List.getLast?_concat]
  dsimp only
  rw [List.dropLast_concat]

/-- C10: when the pool holds a usable texture for `(w, h)`, the requested
usage flags are ignored — the pooled texture is returned as-is, so a pool
hit can carry usage flags differing from those the caller asked for (the
`usage` argument only matters on the allocation path). -/
theorem pool_hit_ignores_requested_usage (ctx : WgpuContext)
    (b : List TexturePoolEntry) (e : TexturePoolEntry)
    (w h usage fresh : Nat) (now : ℚ)
    (hb : alistGet ctx.texture_pool (w, h) = some (b ++ [e]))
    (httl : saturatingSince now e.last_used < 5) :
    (get_texture_from_pool ctx now w h usage fresh).1 = e.texture ∧
    (get_texture_from_pool ctx now w h usage fresh).1.usage
      = e.texture.usage := by
  rw [get_texture_from_pool_hit ctx b e w h usage fresh now hb httl]
  exact ⟨rfl, rfl⟩

/-- Witness for `pool_hit_ignores_requested_usage`: a pooled texture with
usage flags 1 is returned to a caller requesting usage flags 4. -/
theorem pool_hit_ignores_requested_usage_witness :
    (get_texture_from_pool
      { WgpuContext.new with
        texture_pool := [((64, 64), [⟨⟨9, 1, 64, 64⟩, 0⟩])] }
      1 64 64 4 99).1.usage = 1 ∧ (1 : Nat) ≠ 4 :=
  ⟨by
    rw [(pool_hit_ignores_requested_usage
      { WgpuContext.new with
        texture_pool := [((64, 64), [⟨⟨9, 1, 64, 64⟩, 0⟩])] }
      [] ⟨⟨9, 1, 64, 64⟩, 0⟩ 64 64 4 99 1 rfl
      (by norm_num [saturatingSince])).2],
   by decide⟩

/-- C8: a texture released to a non-full `(w, h)` bucket and re-acquired
for the same size before the 5s TTL, with no interleaving operations on
that bucket, is the very same texture (a pool hit, counted as such), and
the acquisition removes it from the pool's free list. -/
theorem texture_pool_roundtrip (ctx : WgpuContext) (tex : Texture)
    (w h usage fresh : Nat) (t1 t2 : ℚ)
    (hlen : ((alistGet ctx.texture_pool (w, h)).getD []).length < 3)
    (hnotin : ∀ e ∈ (alistGet ctx.texture_pool (w, h)).getD [],
      e.texture ≠ tex)
    (httl : saturatingSince t2 t1 < 5) :
    (get_texture_from_pool (return_texture_to_pool ctx t1 tex w h)
        t2 w h usage fresh).1 = tex ∧
    ((get_texture_from_pool (return_texture_to_pool ctx t1 tex w h)
        t2 w h usage fresh).2).metrics.texture_pool_hits
      = ctx.metrics.texture_pool_hits + 1 ∧
    (∀ e ∈ (alistGet ((get_texture_from_pool
        (return_texture_to_pool ctx t1 tex w h) t2 w h usage fresh).2).texture_pool
        (w, h)).getD [], e.texture ≠ tex) := by
  have hret : return_texture_to_pool ctx t1 tex w h
      = { ctx with texture_pool := (alistSet ctx.texture_pool (w, h)
          (((alistGet ctx.texture_pool (w, h)).getD []) ++ [⟨tex, t1⟩])) } := by
    unfold return_texture_to_pool
    dsimp only
    rw [if_pos hlen]
  have hget1 : alistGet (return_texture_to_pool ctx t1 tex w h).texture_pool
      (w, h) = some (((alistGet ctx.texture_pool (w, h)).getD [])
        ++ [(⟨tex, t1⟩ : TexturePoolEntry)]) := by
    rw [hret]
    exact alistGet_alistSet_self _ _ _
  have hhit := get_texture_from_pool_hit
    (return_texture_to_pool ctx t1 tex w h)
    ((alistGet ctx.texture_pool (w, h)).getD []) ⟨tex, t1⟩
    w h usage fresh t2 hget1 httl
  refine ⟨by rw [hhit], ?_, ?_⟩
  · rw [hhit, hret]
  · rw [hhit]
    intro e he
    rw [hret] at he
    simp only [alistGet_alistSet_self] at he
    simp only [Option.getD_some] at he
    exact hnotin e (List.mem_of_mem_filter he)

/-- Witness for `texture_pool_roundtrip`: release into an empty pool at
t=0, re-acquire at t=1. -/
theorem texture_pool_roundtrip_witness :
    (get_texture_from_pool
      (return_texture_to_pool WgpuContext.new 0 ⟨9, 1, 64, 64⟩ 64 64)
      1 64 64 4 99).1 = ⟨9, 1, 64, 64⟩ :=
  (texture_pool_roundtrip WgpuContext.new ⟨9, 1, 64, 64⟩ 64 64 4 99 0 1
    (by decide) (by simp [WgpuContext.new, alistGet])
    (by norm_num [saturatingSince])).1

/-- C5: when compiling the configured transition fails, the engine falls
back to the baseline "fade" program and returns it, caching it under the
FAILING transition's name, and records the compile failure exactly once —
the second request is served from the cache with no further compilation or
error recorded.  When even the fade fallback fails, no program is
returned, the fatal counter is bumped, and the transition-draw section of
the render tick returns early with the surface state untouched (the draw
is skipped for that tick, nothing crashes). -/
theorem transition_compile_failure_fallback (compile compile2 : Compiler)
    (ctx : WgpuContext) (s : Renderer) (name c : String)
    (hnc : alistGet ctx.transition_pipelines name = none)
    (h1 : compile name = none) (h2 : compile "fade" = some c)
    (h1' : compile2 name = none) (h2' : compile2 "fade" = none)
    (hs : should_render_transition s) (hname : s.active_transition = name) :
    (get_transition_pipeline compile ctx name).1 = some ⟨c⟩ ∧
    alistGet ((get_transition_pipeline compile ctx name).2).transition_pipelines
        name = some ⟨c⟩ ∧
    ((get_transition_pipeline compile ctx name).2).metrics.shader_compile_errors
        = ctx.metrics.shader_compile_errors + 1 ∧
    get_transition_pipeline compile
        ((get_transition_pipeline compile ctx name).2) name
      = (some ⟨c⟩, (get_transition_pipeline compile ctx name).2) ∧
    (get_transition_pipeline compile2 ctx name).1 = none ∧
    ((get_transition_pipeline compile2 ctx name).2).metrics.shader_compile_fatal_errors
        = ctx.metrics.shader_compile_fatal_errors + 1 ∧
    ((get_transition_pipeline compile2 ctx name).2).metrics.shader_compile_errors
        = ctx.metrics.shader_compile_errors + 1 ∧
    render_transition_stage compile2 ctx s
      = ((get_transition_pipeline compile2 ctx name).2, s, false) := by
  have hA : get_transition_pipeline compile ctx name
      = (some ⟨c⟩,
        { texture_pool := ctx.texture_pool
          transition_pipelines := alistSet ctx.transition_pipelines name ⟨c⟩
          metrics := { ctx.metrics with
            shader_compile_errors := ctx.metrics.shader_compile_errors + 1 } }) := by
    unfold get_transition_pipeline compile_transition_pipeline
    rw [hnc, h1, h2]
  have hB : get_transition_pipeline compile2 ctx name
      = (none,
        { texture_pool := ctx.texture_pool
          transition_pipelines := ctx.transition_pipelines
          metrics :=
            { texture_pool_hits := ctx.metrics.texture_pool_hits
              texture_pool_misses := ctx.metrics.texture_pool_misses
              shader_compile_errors := ctx.metrics.shader_compile_errors + 1
              shader_compile_fatal_errors :=
                ctx.metrics.shader_compile_fatal_errors + 1 } }) := by
    unfold get_transition_pipeline compile_transition_pipeline
    rw [hnc, h1', h2']
  refine ⟨by rw [hA], ?_, by rw [hA], ?_, by rw [hB], by rw [hB], by rw [hB], ?_⟩
  · rw [hA]
    exact alistGet_alistSet_self _ _ _
  · rw [hA]
    unfold get_transition_pipeline
    rw [show alistGet (alistSet ctx.transition_pipelines name
        (⟨c⟩ : CompiledPipeline)) name = some ⟨c⟩ from
      alistGet_alistSet_self _ _ _]
  · unfold render_transition_stage
    rw [if_pos hs, hname, hB]

/-- Witness for `transition_compile_failure_fallback`: a compiler that only
knows "fade", and one that fails everywhere, against the transition name
"wipe" on a fully-resourced transitioning surface. -/
theorem transition_compile_failure_fallback_witness :
    (get_transition_pipeline
      (fun n => if n = "fade" then some "fadewgsl" else none)
      WgpuContext.new "wipe").1 = some ⟨"fadewgsl"⟩ :=
  (transition_compile_failure_fallback
    (fun n => if n = "fade" then some "fadewgsl" else none)
    (fun _ => none) WgpuContext.new
    { scenarioImageB with
      composition_texture := some ()
      composition_texture_view := some ()
      active_transition := "wipe" }
    "wipe" "fadewgsl" rfl (by decide) (by decide) rfl rfl
    (by decide) rfl).1

/-- Transport of the previous-slot invariant along states agreeing on its
four fields. -/
theorem prevInv_of_fields {s r : Renderer} (h : PrevInvariant s)
    (hp : r.prev_texture = s.prev_texture)
    (hA : r.transition_active = s.transition_active)
    (hC : r.current_texture = s.current_texture)
    (hpr : r.transition_progress = s.transition_progress) :
    PrevInvariant r := by
  unfold PrevInvariant at *
  rw [hp, hA, hC, hpr]
  exact h

/-- The progress update preserves the previous-slot invariant: the active
flag is only dropped once progress has reached 1. -/
theorem advance_transition_prevInv (t : ℚ) (s : Renderer)
    (h : PrevInvariant s) : PrevInvariant (advance_transition t s) := by
  unfold advance_transition
  by_cases ha : s.transition_active = true
  · rw [if_pos ha]
    cases hst : s.transition_start_time with
    | none =>
      dsimp only
      intro _
      exact Or.inl (by simpa using ha)
    | some a =>
      dsimp only
      split_ifs with hp
      · intro _
        exact Or.inr (Or.inr (by simpa using hp))
      · intro _
        exact Or.inl (by simpa using ha)
  · rw [if_neg ha]
    exact h

/-- Creating the composition texture preserves the previous-slot
invariant. -/
theorem ensure_composition_texture_prevInv (s : Renderer)
    (h : PrevInvariant s) : PrevInvariant (ensure_composition_texture s) := by
  obtain ⟨e1, e2, _, _, e5, e6, _, _⟩ := ensure_composition_texture_fields s
  exact prevInv_of_fields h e5 e2 e6 e1

/-- The end-of-transition cleanup preserves the previous-slot invariant
(it clears the active flag only together with the previous slot). -/
theorem transition_cleanup_prevInv (s : Renderer) (h : PrevInvariant s) :
    PrevInvariant (transition_cleanup s) := by
  unfold transition_cleanup
  split_ifs with h1 h2
  · intro hps
    simp at hps
  · exact h
  · exact h

/-- The transition draw step preserves the previous-slot invariant. -/
theorem render_transition_draw_prevInv (ctx' : WgpuContext) (s : Renderer)
    (h : PrevInvariant s) :
    PrevInvariant (render_transition_draw ctx' s).2.1 := by
  obtain ⟨u1, u2, u3, u4, u5, u6, u7, u8⟩ := update_transition_bind_group_fields s
  have hu : PrevInvariant (update_transition_bind_group s) :=
    prevInv_of_fields h u4 u2 u5 u1
  unfold render_transition_draw
  by_cases hbg : s.transition_bind_group = true
  · rw [if_neg (not_not_intro hbg), if_pos hbg]
    by_cases hcv : s.composition_texture_view.isNone = true
    · rw [if_pos hcv]
      exact h
    · rw [if_neg hcv]
      exact transition_cleanup_prevInv _
        (prevInv_of_fields h rfl rfl rfl rfl)
  · rw [if_pos hbg]
    by_cases hb2 : (update_transition_bind_group s).transition_bind_group = true
    · rw [if_pos hb2]
      by_cases hcv :
          (update_transition_bind_group s).composition_texture_view.isNone = true
      · rw [if_pos hcv]
        exact hu
      · rw [if_neg hcv]
        exact transition_cleanup_prevInv _
          (prevInv_of_fields hu rfl rfl rfl rfl)
    · rw [if_neg hb2]
      exact transition_cleanup_prevInv _ hu

/-- The transition-drawing section preserves the previous-slot
invariant. -/
theorem render_transition_stage_prevInv (compile : Compiler)
    (ctx : WgpuContext) (s : Renderer) (h : PrevInvariant s) :
    PrevInvariant (render_transition_stage compile ctx s).2.1 := by
  unfold render_transition_stage
  by_cases hsr : should_render_transition s
  · rw [if_pos hsr]
    rcases hgp : get_transition_pipeline compile ctx s.active_transition
      with ⟨p, ctx'⟩
    cases p with
    | none => exact h
    | some pl => exact render_transition_draw_prevInv ctx' s h
  · rw [if_neg hsr]
    exact h

/-- The blit/present tail preserves the previous-slot invariant. -/
theorem blit_stage_prevInv (wayland : Bool) (now : ℚ) (ctx : WgpuContext)
    (s : Renderer) (h : PrevInvariant s) :
    PrevInvariant (blit_stage wayland now ctx s).2 := by
  obtain ⟨b1, b2, b3, b4, _, _, _⟩ := blit_stage_fields wayland now ctx s
  exact prevInv_of_fields h b3 b2 b4 b1

/-- A full render tick preserves the previous-slot invariant. -/
theorem render_prevInv (compile : Compiler) (acq : SurfaceAcquire)
    (caps_ok wayland : Bool) (t : ℚ) (ctx : WgpuContext) (s : Renderer)
    (h : PrevInvariant s) :
    PrevInvariant (render compile acq caps_ok wayland t ctx s).2 := by
  unfold render
  dsimp only
  obtain ⟨z1, z2, z3, z4, z5, z6⟩ :=
    reconfigure_if_needed_fields caps_ok (reset_frame_flag s)
  set s0 := reconfigure_if_needed caps_ok (reset_frame_flag s) with hs0
  have h0 : PrevInvariant s0 := by
    refine prevInv_of_fields h ?_ ?_ ?_ ?_
    · exact z5.trans (reset_frame_flag_prev s)
    · exact z2.trans (reset_frame_flag_active s)
    · exact z6.trans (reset_frame_flag_current s)
    · exact z1.trans (reset_frame_flag_progress s)
  by_cases hc0 : s0.configured = true
  · rw [if_neg (by simp [hc0])]
    by_cases hgo : (¬s0.transition_active = true ∧ ¬s0.needs_redraw = true)
    · rw [if_pos hgo]
      exact h0
    · rw [if_neg hgo]
      cases acq with
      | lost => exact prevInv_of_fields h0 (by simp) (by simp) (by simp) (by simp)
      | outdated =>
        exact prevInv_of_fields h0 (by simp) (by simp) (by simp) (by simp)
      | timeout =>
        exact prevInv_of_fields h0 (by simp) (by simp) (by simp) (by simp)
      | otherError => exact h0
      | ok =>
        have h1 : PrevInvariant (advance_transition t s0) :=
          advance_transition_prevInv t s0 h0
        set s1 := advance_transition t s0 with hs1
        have h2 : PrevInvariant
            (if s1.transition_active = true then ensure_composition_texture s1
             else s1) := by
          split_ifs
          · exact ensure_composition_texture_prevInv s1 h1
          · exact h1
        set s2 := if s1.transition_active = true then ensure_composition_texture s1
          else s1 with hs2
        have h3 := render_transition_stage_prevInv compile ctx s2 h2
        rcases hrts : render_transition_stage compile ctx s2 with ⟨ctx3, s3, b⟩
        rw [hrts] at h3
        simp only at h3
        cases b with
        | false => exact h3
        | true => exact blit_stage_prevInv wayland t ctx3 s3 h3
  · rw [if_pos (by simp [hc0])]
    exact h0

/-- `switch_content` re-establishes the previous-slot invariant outright:
it always leaves `current` empty. -/
theorem switch_content_prevInv (s : Renderer) :
    PrevInvariant (switch_content s) := by
  intro _
  refine Or.inr (Or.inl ?_)
  rcases hcur : s.current_texture with _ | tex <;>
    simp [switch_content, hcur]

/-- `upload_image_data` re-establishes the previous-slot invariant: with a
previous texture it arms the transition, and without one the premise is
empty. -/
theorem upload_image_data_prevInv (s : Renderer) (fresh w h : Nat) :
    PrevInvariant (upload_image_data s fresh w h) := by
  unfold upload_image_data
  dsimp only
  split_ifs with hp
  · intro _
    exact Or.inl (by simp)
  · intro hps
    simp at hps hp
    simp_all

/-- `abort_transition` preserves the previous-slot invariant: it forces
progress to 1 whenever it acts. -/
theorem abort_transition_prevInv (s : Renderer) (h : PrevInvariant s) :
    PrevInvariant (abort_transition s) := by
  unfold abort_transition
  split_ifs with hg
  · intro _
    exact Or.inr (Or.inr (by simp))
  · exact h

/-- `Renderer.clear` re-establishes the previous-slot invariant: it drops
the previous texture. -/
theorem clear_prevInv (s : Renderer) : PrevInvariant (Renderer.clear s) := by
  intro hps
  simp [Renderer.clear] at hps

/-- `upload_frame` preserves the previous-slot invariant. -/
theorem upload_frame_prevInv (ctx : WgpuContext) (s : Renderer)
    (frame : VideoFrame) (now : ℚ) (fresh : Nat) (h : PrevInvariant s) :
    PrevInvariant (upload_frame ctx s frame now fresh).2 := by
  unfold upload_frame
  split_ifs with hg
  · exact h
  · rcases hcur : s.current_texture with _ | tex
    · rcases hpool : get_texture_from_pool ctx now frame.width frame.height
        (USAGE_TEXTURE_BINDING + USAGE_COPY_DST) fresh with ⟨tnew, ctx2⟩
      by_cases hprev : s.prev_texture.isSome = true
      · intro _
        refine Or.inl ?_
        simp [hcur, hpool, hprev]
        try (split_ifs <;> simp_all)
      · intro hps
        exfalso
        apply hprev
        revert hps
        simp [hcur, hpool]
        try (split_ifs <;> simp_all)
    · intro hps
      have hsprev : s.prev_texture.isSome = true := by
        revert hps
        simp [hcur]
        try (split_ifs <;> simp_all)
      rcases h hsprev with hA | hC | hP
      · refine Or.inl ?_
        simp [hcur, hA]
        try (split_ifs <;> simp_all)
      · rw [hcur] at hC
        simp at hC
      · refine Or.inr (Or.inr ?_)
        simp [hcur]
        try (split_ifs <;> simp_all)
        try (split_ifs <;> simp_all [hP])

/-- C2 (amended): in every reachable state of a render surface, a retained
previous texture implies the transition is active, OR `current` is empty
(the window between `switch_content` and the next upload), OR the
transition has finished (`progress ≥ 1`, completion or abort); every
modelled operation preserves this weakened invariant. -/
theorem prev_texture_weak_invariant (p : WgpuContext × Renderer)
    (h : Reachable p) : PrevInvariant p.2 := by
  induction h with
  | init =>
    intro hps
    simp [Renderer.new] at hps
  | step op hr ih =>
    rename_i p
    obtain ⟨ctx, s⟩ := p
    cases op with
    | renderTick compile acq caps_ok wayland t =>
      exact render_prevInv compile acq caps_ok wayland t ctx s ih
    | switchContent => exact switch_content_prevInv s
    | uploadImage fresh w h => exact upload_image_data_prevInv s fresh w h
    | uploadFrame frame now fresh =>
      exact upload_frame_prevInv ctx s frame now fresh ih
    | abortTransition => exact abort_transition_prevInv s ih
    | clearSurface => exact clear_prevInv s
    | setContentTypeOp t => exact prevInv_of_fields ih rfl rfl rfl rfl
    | applyConfigOp name ms => exact prevInv_of_fields ih rfl rfl rfl rfl
    | resize w h caps_ok =>
      obtain ⟨z1, z2, _, _, z5, z6⟩ := resize_checked_fields s w h caps_ok
      exact prevInv_of_fields ih z5 z2 z6 z1
    | recreateSurfaceOp => exact prevInv_of_fields ih rfl rfl rfl rfl
    | setVideoSession sid => exact prevInv_of_fields ih rfl rfl rfl rfl
    | setBatchAnchor batch anchor => exact prevInv_of_fields ih rfl rfl rfl rfl

/-- Witness for `prev_texture_weak_invariant` at the initial state. -/
theorem prev_texture_weak_invariant_witness :
    PrevInvariant (WgpuContext.new, Renderer.new).2 :=
  prev_texture_weak_invariant (WgpuContext.new, Renderer.new) Reachable.init

/-- C2 counterexample: the strict invariant "previous non-empty only while
the transition is active" is false — after a `switch_content` (a reachable
state) the previous slot is occupied while `transition_active` is still
false (the flag is only raised when the next content is uploaded). -/
theorem prev_requires_active_counterexample :
    Reachable (WgpuContext.new, scenarioSwitched) ∧
    scenarioSwitched.prev_texture.isSome = true ∧
    scenarioSwitched.transition_active = false := by
  refine ⟨?_, rfl, rfl⟩
  rw [show (WgpuContext.new, scenarioSwitched)
      = applyOp Op.switchContent
        (applyOp (Op.uploadImage 1 100 50) (WgpuContext.new, Renderer.new))
    from rfl]
  exact Reachable.step _ (Reachable.step _ Reachable.init)

/-- C1 (evaluation at the failing input): image A is shown, the scheduler
switches, image B is uploaded arming a 1s transition, the first render
tick at t = 0 anchors it, and the render tick at t = 1 (elapsed = exactly
the duration) yields progress 1, an Idle transition (`transition_active`
false) with the session retired (stats taken) — but the previous texture
slot is STILL occupied on that tick: the completion branch clears
`transition_active` (renderer.rs:944) before `should_render_transition` is
computed (renderer.rs:1018), so the prev-texture cleanup (renderer.rs:1091)
it guards never runs. -/
theorem completion_tick_retains_prev_texture :
    scenarioTick1.2.transition_progress = 1 ∧
    scenarioTick1.2.transition_active = false ∧
    scenarioTick1.2.transition_just_completed = true ∧
    scenarioTick1.2.transition_stats = none ∧
    scenarioTick1.2.prev_texture.isSome = true := by
  norm_num [scenarioTick1, scenarioTick0, scenarioImageB, scenarioSwitched,
    scenarioImageA, Renderer.new, WgpuContext.new, totalCompiler,
    upload_image_data, switch_content, render, reset_frame_flag,
    reconfigure_if_needed, resize_checked, advance_transition,
    ensure_composition_texture, render_transition_stage,
    render_transition_draw, should_render_transition,
    get_transition_pipeline, compile_transition_pipeline, alistGet, alistSet,
    update_transition_bind_group, transition_cleanup, blit_stage,
    blit_prepare_bind_group, blit_present, blit_source_select,
    BlitSource.isComposition, BlitSource.isPrev, ContentType.isVideo,
    request_frame_callback, saturatingSince, USAGE_TEXTURE_BINDING,
    USAGE_COPY_DST, USAGE_RENDER_ATTACHMENT]

/-- C4 counterexample: with a 50ms duration and a stale batch anchor the
first render tick re-anchors to now minus 100ms, and the progress computed
at that moment is min(0.1/0.05, 1) = 1 — NOT strictly less than 1. -/
theorem stale_batch_reanchor_progress_not_below_one :
    staleBatchAdvance.transition_start_time = some (9 / 10) ∧
    staleBatchAdvance.transition_progress = 1 ∧
    ¬staleBatchAdvance.transition_progress < 1 := by
  norm_num [staleBatchAdvance, staleBatchState, scenarioImageB,
    scenarioSwitched, scenarioImageA, Renderer.new, upload_image_data,
    switch_content, advance_transition, saturatingSince,
    USAGE_TEXTURE_BINDING, USAGE_COPY_DST, USAGE_RENDER_ATTACHMENT]

/-- C4 (amended): on the first render tick of an active transition with no
anchor, the engine reuses a shared batch anchor whose age is at most 80%
of the duration; re-anchors to now minus 100ms when the age exceeds 80% of
the duration (given now ≥ 100ms); and anchors to now when no batch anchor
exists.  In the re-anchored case the computed progress is min(0.1 /
duration, 1), which is strictly below 1 exactly when the duration exceeds
100ms (for durations ≤ 100ms it reaches 1 immediately). -/
theorem first_render_tick_anchor_assignment (t : ℚ) (s : Renderer)
    (ha : s.transition_active = true)
    (hst : s.transition_start_time = none) :
    (s.batch_start_time = none →
      (advance_transition t s).transition_start_time = some t) ∧
    (∀ b, s.batch_start_time = some b →
      saturatingSince t b ≤ s.transition_duration * (8 / 10) →
      (advance_transition t s).transition_start_time = some b) ∧
    (∀ b, s.batch_start_time = some b →
      s.transition_duration * (8 / 10) < saturatingSince t b →
      (1 : ℚ) / 10 ≤ t →
      (advance_transition t s).transition_start_time = some (t - 1 / 10) ∧
      ((1 : ℚ) / 10 < s.transition_duration →
        (advance_transition t s).transition_progress < 1)) := by
  unfold advance_transition
  rw [if_pos ha, hst]
  dsimp only
  refine ⟨?_, ?_, ?_⟩
  · intro hb
    rw [hb]
    try simp
  · intro b hb hage
    rw [hb]
    try dsimp only
    rw [if_neg (not_lt.mpr hage)]
    try simp
  · intro b hb hage ht10
    rw [hb]
    dsimp only
    rw [if_pos hage, if_pos ht10]
    have hsat : saturatingSince t (t - 1 / 10) = 1 / 10 := by
      unfold saturatingSince
      rw [show t - (t - 1 / 10) = 1 / 10 by ring]
      exact max_eq_left (by norm_num)
    refine ⟨by simp, ?_⟩
    intro hd
    have hdpos : (0 : ℚ) < s.transition_duration := lt_trans (by norm_num) hd
    have hlt : (1 : ℚ) / 10 / s.transition_duration < 1 := by
      rw [div_lt_one hdpos]
      exact hd
    simp only [hsat]
    calc min ((1 : ℚ) / 10 / s.transition_duration) 1
        ≤ (1 : ℚ) / 10 / s.transition_duration := min_le_left _ _
      _ < 1 := hlt

/-- Witness for `first_render_tick_anchor_assignment`: a batch anchor at
time 0 whose age (1s) is within 80% of a 2s duration is reused. -/
theorem first_render_tick_anchor_assignment_witness :
    (advance_transition 1
      { staleBatchState with transition_duration := 2 }).transition_start_time
      = some 0 :=
  (first_render_tick_anchor_assignment 1
    { staleBatchState with transition_duration := 2 } rfl rfl).2.1 0 rfl
    (by norm_num [saturatingSince, staleBatchState, scenarioImageB,
      scenarioSwitched, scenarioImageA, Renderer.new, upload_image_data,
      switch_content])

end Kaleidux